import Mathlib

/-!
Shallow embedding of `icloud_auto_download.py`.

Python `datetime` objects (always timezone-aware UTC in this program) are
modelled as records of numeric fields; comparison is the lexicographic
field comparison Python uses for aware datetimes in the same timezone.
Python guarantees `1 <= month <= 12` for every constructed `datetime`;
that invariant appears as a hypothesis where a function needs it.
-/

structure DateTime where
  year : Nat
  month : Nat
  day : Nat
  hour : Nat
  minute : Nat
  second : Nat
  usecond : Nat
deriving DecidableEq, Repr

/-- Python `datetime <= datetime`: lexicographic on the components. -/
def DateTime.le (a b : DateTime) : Bool :=
  if a.year ≠ b.year then decide (a.year < b.year)
  else if a.month ≠ b.month then decide (a.month < b.month)
  else if a.day ≠ b.day then decide (a.day < b.day)
  else if a.hour ≠ b.hour then decide (a.hour < b.hour)
  else if a.minute ≠ b.minute then decide (a.minute < b.minute)
  else if a.second ≠ b.second then decide (a.second < b.second)
  else decide (a.usecond ≤ b.usecond)

/-- Python `dt.replace(day=d)`. -/
def DateTime.replaceDay (d : DateTime) (day : Nat) : DateTime := { d with day := day }

/-- `dateutil.relativedelta(months=1)` added to a datetime whose day is 1:
the month advances by one, rolling the year over after December. -/
def addOneMonth (d : DateTime) : DateTime :=
  if d.month = 12 then { d with year := d.year + 1, month := 1 }
  else { d with month := d.month + 1 }

/-- The month counter `12*year + month`, used only to bound the
`month_range` loop. -/
def monthsKey (d : DateTime) : Nat := 12 * d.year + d.month

/-- Constructor of a month start: year `y`, month `m`, day 1, midnight.
This is exactly what `parse_month` (strptime with format `%Y-%m`) produces. -/
def mkYM (y m : Nat) : DateTime := ⟨y, m, 1, 0, 0, 0, 0⟩

/-- The body of `month_range`'s `while cur <= end_norm` loop, with an
explicit iteration bound.  The bound `monthsKey en + 1 - monthsKey cur`
chosen in `month_range` never cuts the loop short for datetimes with a
valid month field (`month_range_go_spec` computes the loop's exact
output under that bound), so this is the Python loop, which terminates
on such inputs. -/
def month_range_go (en : DateTime) : Nat → DateTime → List DateTime
  | 0, _ => []
  | fuel + 1, cur =>
    if DateTime.le cur en then cur :: month_range_go en fuel (addOneMonth cur)
    else []

/-- Model of `month_range(start_month_dt, end_month_dt)`: normalise
both ends to day 1, then yield `cur` and step one month while
`cur <= end_norm`. -/
def month_range (start_month_dt end_month_dt : DateTime) : List DateTime :=
  let cur := start_month_dt.replaceDay 1
  let en := end_month_dt.replaceDay 1
  month_range_go en (monthsKey en + 1 - monthsKey cur) cur

/-- Model of `calendar.isleap(y)`. -/
def isleap (y : Nat) : Bool :=
  decide (y % 4 = 0 ∧ (y % 100 ≠ 0 ∨ y % 400 = 0))

/-- Model of `calendar.monthrange(y, m)[1]`: the number of days of month `m` of
year `y` (the Python function raises outside `1 <= m <= 12`; theorems
that use this carry that hypothesis). -/
def days_in_month (y m : Nat) : Nat :=
  match m with
  | 2 => if isleap y then 29 else 28
  | 4 => 30
  | 6 => 30
  | 9 => 30
  | 11 => 30
  | _ => 31

/-- Model of `month_bounds(month_dt)`. -/
def month_bounds (month_dt : DateTime) : DateTime × DateTime :=
  let first : DateTime :=
    { month_dt with day := 1, hour := 0, minute := 0, second := 0, usecond := 0 }
  let last_day := days_in_month first.year first.month
  let last : DateTime :=
    { first with day := last_day, hour := 23, minute := 59, second := 59 }
  (first, last)

/-! Strings and filenames.

Python strings are modelled through Lean's `String` (a packed `List Char`);
all transformations act on the character list, matching Python's
character-by-character semantics. -/

/-- The reserved set `r'<>:"/\|?*'` of `safe_filename`. -/
def reservedChars : List Char := ['<', '>', ':', '"', '/', '\\', '|', '?', '*']

/-- The ASCII whitespace characters removed by Python's `str.strip()`. -/
def isPySpace (c : Char) : Bool :=
  c = ' ' || c = '\t' || c = '\n' || c = '\x0d' || c = '\x0b' || c = '\x0c'

/-- Python `str.strip()`: drop whitespace from both ends. -/
def pyStrip (l : List Char) : List Char :=
  ((l.dropWhile isPySpace).reverse.dropWhile isPySpace).reverse

/-- Model of `safe_filename(name)`: keep the characters outside the reserved set,
then strip surrounding whitespace. -/
def safe_filename (name : String) : String :=
  String.mk (pyStrip (name.data.filter (fun c => !(reservedChars.contains c))))

/-- Decimal digits of `n`, most significant first. -/
def natDigits (n : Nat) : List Char := Nat.toDigits 10 n

/-- Left-pad with `'0'` to width `w`, as strftime's numeric fields do. -/
def padZeros (w : Nat) (l : List Char) : List Char :=
  List.replicate (w - l.length) '0' ++ l

/-- Model of `dt.strftime("%Y%m%d_%H%M%S")`. -/
def strftimeCompact (t : DateTime) : String :=
  String.mk (padZeros 4 (natDigits t.year) ++ padZeros 2 (natDigits t.month) ++
    padZeros 2 (natDigits t.day) ++ ['_'] ++ padZeros 2 (natDigits t.hour) ++
    padZeros 2 (natDigits t.minute) ++ padZeros 2 (natDigits t.second))

/-- Python `name.split(".")[-1]`: the (possibly empty) suffix after the
last `'.'`; the whole string when no `'.'` occurs. -/
def afterLastDot (l : List Char) : List Char :=
  (l.reverse.takeWhile (fun c => c ≠ '.')).reverse

/-- Python `s.lower()` (ASCII range, which is all this program feeds it). -/
def lowerStr (s : String) : String := String.mk (s.data.map Char.toLower)

/-- A remote photo/video record.  `filename` is `""` when the remote
record has no original filename (Python `None` and `""` behave
identically everywhere the source touches `asset.filename`, always
guarded by `or` / `or ""`). -/
structure Asset where
  id : String
  filename : String
  item_type : String
  created : Option DateTime
deriving DecidableEq, Repr

/-- Model of `asset_timestamp(asset)`: `getattr(asset, "created", None)`, returned
when truthy (a `datetime` is always truthy), else `None`. -/
def asset_timestamp (asset : Asset) : Option DateTime := asset.created

/-- Model of `is_in_month(asset, start_dt, end_dt)`. -/
def is_in_month (asset : Asset) (start_dt end_dt : DateTime) : Bool :=
  match asset_timestamp asset with
  | none => false
  | some ts => DateTime.le start_dt ts && DateTime.le ts end_dt

/-- The list comprehension of `main` (line 153):
`[a for a in photos if is_in_month(a, mstart, mend)]`. -/
def filter_by_month (photos : List Asset) (mstart mend : DateTime) : List Asset :=
  photos.filter (fun a => is_in_month a mstart mend)

/-- Model of `file_ext(asset)`. -/
def file_ext (asset : Asset) : String :=
  let name := lowerStr asset.filename
  if name.data.contains '.' then "." ++ String.mk (afterLastDot name.data)
  else if asset.item_type = "video" then ".mov"
  else ".jpg"

/-- Model of `build_filename(asset)`. -/
def build_filename (asset : Asset) : String :=
  let base_time := match asset_timestamp asset with
    | some ts => strftimeCompact ts
    | none => "unknown"
  let base := base_time ++ "_" ++
    (if asset.filename = "" then asset.id else asset.filename)
  safe_filename base

/-- Value `build_filename(asset) + file_ext(asset)` (line 114). -/
def target_name (asset : Asset) : String := build_filename asset ++ file_ext asset

/-- Model of `os.path.join(out_dir, name)` for a non-empty directory with no
trailing separator, which is the only shape `main` produces. -/
def path_join (out_dir name : String) : String := out_dir ++ "/" ++ name

/-- The target path computed at lines 114-115. -/
def target_path (out_dir : String) (asset : Asset) : String :=
  path_join out_dir (target_name asset)

/-! Downloader.

The filesystem visible to `download_asset` is a path-to-size map (an
association list; `fsSet` shadows).  One invocation of the download
capability together with `save_stream_to_file` can end three ways,
mirroring the `try` body at lines 125-126:

* the fetch `asset.download()` itself raises: the target file is not
  touched (`save_stream_to_file` never runs);
* the fetch succeeds but streaming to disk raises after `written` bytes:
  `open(..., "wb")` has already truncated/created the file, so the target
  is left holding exactly the bytes written before the exception (the
  `with` block closes the handle on that exit path);
* fetch and save both succeed and the target holds the full payload.

An exception is modelled by its type name and text, the two pieces the
code uses at line 133. -/

abbrev FS : Type := List (String × Nat)

/-- File size at `p`, `none` when `os.path.exists` is false. -/
def fsGet (fs : FS) (p : String) : Option Nat := List.lookup p fs

/-- Write (or rewrite) the file at `p` to `n` bytes. -/
def fsSet (fs : FS) (p : String) (n : Nat) : FS := (p, n) :: fs

/-- The check at line 117: `os.path.exists(p) and os.path.getsize(p) > 0`. -/
def exists_nonempty (fs : FS) (p : String) : Bool :=
  match fsGet fs p with
  | some n => decide (0 < n)
  | none => false

/-- Outcome of one `asset.download()` + `save_stream_to_file` round. -/
inductive AttemptResult where
  | success (size : Nat)
  | fetchErr (etype etext : String)
  | writeErr (written : Nat) (etype etext : String)
deriving DecidableEq, Repr

/-- Holds (as `true`) exactly for the two raising outcomes. -/
def AttemptResult.fails : AttemptResult → Bool
  | .success _ => false
  | _ => true

/-- Projection to the `(etype, etext)` pair of a failing outcome. -/
def AttemptResult.errInfo : AttemptResult → Option (String × String)
  | .success _ => none
  | .fetchErr t m => some (t, m)
  | .writeErr _ t m => some (t, m)

/-- Model of the message `type name: text` built at line 133: for `last_err = None`
this is `"NoneType: None"`. -/
def errText : Option (String × String) → String
  | none => "NoneType: None"
  | some (t, m) => t ++ ": " ++ m

/-- Everything `download_asset` returns or effects: the Python result
pair (`result`, `status`), the filesystem after the call, how many times
the download capability was invoked, and the `time.sleep` durations
(seconds) in order. -/
structure DLResult where
  result : Option String
  status : String
  fs : FS
  downloadCalls : Nat
  sleeps : List ℚ
deriving DecidableEq, Repr

/-- The `while attempt < max_retries` loop of `download_asset`
(lines 120-133).  `remaining = max_retries - attempt` counts the loop
iterations still allowed, `i` is the current value of `attempt`; the
Python loop runs exactly `max(max_retries, 0)` iterations unless it
returns early, which is the fuel the caller passes. -/
def download_loop (attempts : Nat → AttemptResult) (target : String) :
    Nat → Nat → FS → Option (String × String) → Nat → List ℚ → DLResult
  | 0, _, fs, last_err, calls, sleeps =>
    ⟨some (errText last_err), "error", fs, calls, sleeps⟩
  | remaining + 1, i, fs, _, calls, sleeps =>
    match attempts i with
    | .success n =>
      ⟨some target, "ok", fsSet fs target n, calls + 1, sleeps⟩
    | .fetchErr t m =>
      download_loop attempts target remaining (i + 1) fs (some (t, m))
        (calls + 1) (sleeps ++ [(3 / 2 : ℚ) * (i + 1)])
    | .writeErr n t m =>
      download_loop attempts target remaining (i + 1) (fsSet fs target n)
        (some (t, m)) (calls + 1) (sleeps ++ [(3 / 2 : ℚ) * (i + 1)])

/-- Model of `download_asset(asset, out_dir, max_retries)`.  `skip_videos` is the
module-level `SKIP_VIDEOS` flag; `attempts` is the behaviour of the
asset's download capability on its successive invocations;
`max_retries` is an `Int` so that non-positive Python arguments are
representable. -/
def download_asset (skip_videos : Bool) (asset : Asset) (out_dir : String)
    (attempts : Nat → AttemptResult) (fs : FS) (max_retries : Int) : DLResult :=
  if skip_videos && asset.item_type == "video" then
    ⟨none, "skipped_video", fs, 0, []⟩
  else
    let tp := target_path out_dir asset
    if exists_nonempty fs tp then ⟨some tp, "skip", fs, 0, []⟩
    else download_loop attempts tp max_retries.toNat 0 fs none 0 []

/-! Definitions modelled from the spec's own words, for comparison with
the code-derived definitions above, and concrete fixtures used by the
counterexamples and witnesses below. -/

/-- Modelled from the spec: the ordered sequence of `n` consecutive
first-of-month instants starting at year `y`, month `m` (section 4.2:
"the first day of start's month, then each subsequent first-of-month"). -/
def spec_month_seq : Nat → Nat → Nat → List DateTime
  | 0, _, _ => []
  | n + 1, y, m =>
    mkYM y m :: (if m = 12 then spec_month_seq n (y + 1) 1 else spec_month_seq n y (m + 1))

/-- Modelled from the spec: the base name `"{timeTag}_{nameOrId}"` of
section 4.4, before sanitization. -/
def spec_base_name (asset : Asset) : String :=
  (match asset.created with
   | some t => strftimeCompact t
   | none => "unknown") ++ "_" ++
  (if asset.filename ≠ "" then asset.filename else asset.id)

/-- Modelled from the spec: the extension rule of section 4.4 (dot plus
lowercased suffix after the last dot; else `.mov` for video; else `.jpg`). -/
def spec_extension (asset : Asset) : String :=
  if asset.filename.data.contains '.' then
    "." ++ String.mk ((afterLastDot asset.filename.data).map Char.toLower)
  else if asset.item_type = "video" then ".mov"
  else ".jpg"

/-- Fixture for C1: a photo asset with an ordinary name. -/
def c1_asset : Asset := ⟨"A1", "a.jpg", "photo", some ⟨2026, 1, 5, 10, 20, 30, 0⟩⟩

/-- Fixture for C1's counterexample: the fetch succeeds but streaming to
disk breaks after 100 bytes, on every attempt. -/
def c1_attempts : Nat → AttemptResult :=
  fun _ => .writeErr 100 "ChunkedEncodingError" "connection broken"

/-- Fixture for C1's witness: `asset.download()` itself raises on every
attempt, before any byte reaches disk. -/
def c1_fetch_attempts : Nat → AttemptResult :=
  fun _ => .fetchErr "ConnectionError" "timed out"

/-- Fixture for C2: a photo asset. -/
def c2_asset : Asset := ⟨"A2", "b.jpg", "photo", some ⟨2026, 1, 6, 0, 0, 0, 0⟩⟩

/-- Fixture for C2: a filesystem already holding 5 bytes at the target. -/
def c2_fs : FS := [(target_path "out" c2_asset, 5)]

/-- Fixture for C2: a capability that would succeed if it were called. -/
def c2_attempts : Nat → AttemptResult := fun _ => .success 10

/-- Fixture for C3: a photo asset. -/
def c3_asset : Asset := ⟨"A3", "c.heic", "photo", some ⟨2026, 2, 1, 8, 0, 0, 0⟩⟩

/-- Fixture for C3: every invocation raises; the second one fails while
writing, the others during the fetch. -/
def c3_attempts : Nat → AttemptResult :=
  fun i => if i = 1 then .writeErr 7 "OSError" "disk full"
           else .fetchErr "ConnectionError" "timed out"

/-- Fixture for C4: the asset of the spec's sanitization example. -/
def c4_asset : Asset :=
  ⟨"AID", "My:File*Name?.JPG", "photo", some ⟨2026, 1, 5, 10, 20, 30, 0⟩⟩

/-- Fixture for C9: a video asset. -/
def c9_asset : Asset := ⟨"V9", "movie.MOV", "video", some ⟨2026, 3, 2, 12, 0, 0, 0⟩⟩

/-- Fixture for C9: a capability that would succeed if it were called. -/
def c9_attempts : Nat → AttemptResult := fun _ => .success 999

/-- Fixture for C10: a photo asset. -/
def c10_asset : Asset := ⟨"A10", "d.png", "photo", some ⟨2026, 4, 1, 9, 30, 0, 0⟩⟩

/-- Fixture for C10: a capability that would succeed if it were called. -/
def c10_attempts : Nat → AttemptResult := fun _ => .success 42

/-! Helper lemmas. -/

/-- Comparison of two month starts reduces to comparison of their month
counters, given valid month fields. -/
lemma le_mkYM (y1 m1 y2 m2 : Nat) (h11 : 1 ≤ m1) (h12 : m1 ≤ 12)
    (h21 : 1 ≤ m2) (h22 : m2 ≤ 12) :
    DateTime.le (mkYM y1 m1) (mkYM y2 m2) = true ↔ 12 * y1 + m1 ≤ 12 * y2 + m2 := by
  simp only [DateTime.le, mkYM]
  split_ifs <;> simp_all <;> omega

/-- With the fuel `month_range` passes, the loop body produces exactly
the spec's sequence of consecutive month starts; in particular the fuel
never cuts the `while` loop short. -/
lemma month_range_go_spec (y2 m2 : Nat) (h21 : 1 ≤ m2) (h22 : m2 ≤ 12) :
    ∀ (fuel y1 m1 : Nat), 1 ≤ m1 → m1 ≤ 12 →
      12 * y2 + m2 + 1 - (12 * y1 + m1) = fuel →
      month_range_go (mkYM y2 m2) fuel (mkYM y1 m1) = spec_month_seq fuel y1 m1 := by
  intro fuel
  induction fuel with
  | zero => intro y1 m1 _ _ _; rfl
  | succ n ih =>
    intro y1 m1 h11 h12 hfuel
    have hle : DateTime.le (mkYM y1 m1) (mkYM y2 m2) = true :=
      (le_mkYM y1 m1 y2 m2 h11 h12 h21 h22).mpr (by omega)
    rw [month_range_go, if_pos hle, spec_month_seq]
    by_cases h12eq : m1 = 12
    · subst h12eq
      have haddm : addOneMonth (mkYM y1 12) = mkYM (y1 + 1) 1 := by
        simp [addOneMonth, mkYM]
      rw [haddm, if_pos rfl, ih (y1 + 1) 1 (by omega) (by omega) (by omega)]
    · have haddm : addOneMonth (mkYM y1 m1) = mkYM y1 (m1 + 1) := by
        simp [addOneMonth, mkYM, h12eq]
      rw [haddm, if_neg h12eq, ih y1 (m1 + 1) (by omega) (by omega) (by omega)]

/-- The last entry of a nonempty spec month sequence is the month start
whose counter closes the arithmetic progression. -/
lemma spec_month_seq_getLast (y2 m2 : Nat) (h21 : 1 ≤ m2) (h22 : m2 ≤ 12) :
    ∀ (n y m : Nat), 1 ≤ m → m ≤ 12 → 12 * y + m + n = 12 * y2 + m2 →
      (spec_month_seq (n + 1) y m).getLast? = some (mkYM y2 m2) := by
  intro n
  induction n with
  | zero =>
    intro y m h1 h2 hk
    have hy : y = y2 := by omega
    have hm : m = m2 := by omega
    subst hy; subst hm
    have hseq : spec_month_seq 1 y m = [mkYM y m] := by
      rw [spec_month_seq]
      split_ifs <;> rfl
    rw [hseq]
    rfl
  | succ k ih =>
    intro y m h1 h2 hk
    rw [spec_month_seq]
    by_cases hm : m = 12
    · subst hm
      rw [if_pos rfl, spec_month_seq, List.getLast?_cons_cons, ← spec_month_seq]
      exact ih (y + 1) 1 (by omega) (by omega) (by omega)
    · rw [if_neg hm, spec_month_seq, List.getLast?_cons_cons, ← spec_month_seq]
      exact ih y (m + 1) (by omega) (by omega) (by omega)

/-- Membership characterisation of `is_in_month`. -/
lemma is_in_month_iff (a : Asset) (s e : DateTime) :
    is_in_month a s e = true ↔
      ∃ t, a.created = some t ∧ DateTime.le s t = true ∧ DateTime.le t e = true := by
  unfold is_in_month asset_timestamp
  cases hc : a.created with
  | none => simp
  | some t => simp [Bool.and_eq_true]

/-- Unfolding of the `String` constructor's field. -/
lemma data_mk (l : List Char) : (String.mk l).data = l := rfl

/-- Round trip of `Char.ofNat` on a valid scalar value. -/
lemma toNat_ofNat_valid (n : Nat) (h : n.isValidChar) : (Char.ofNat n).toNat = n := by
  rw [Char.ofNat, dif_pos h]
  rfl

/-- Lowercasing maps no character onto `'.'` except `'.'` itself. -/
lemma toLower_eq_dot_iff (c : Char) : Char.toLower c = '.' ↔ c = '.' := by
  constructor
  · intro h
    unfold Char.toLower at h
    by_cases hc : c.toNat ≥ 65 ∧ c.toNat ≤ 90
    · exfalso
      rw [if_pos hc] at h
      have hval : (c.toNat + 32).isValidChar := by
        constructor
        have := hc.2
        omega
      have h46 : (Char.ofNat (c.toNat + 32)).toNat = c.toNat + 32 :=
        toNat_ofNat_valid _ hval
      rw [h] at h46
      have hdot : ('.' : Char).toNat = 46 := by decide
      rw [hdot] at h46
      omega
    · rw [if_neg hc] at h
      exact h
  · intro h
    subst h
    decide

/-- Lowercasing a character list preserves whether it contains a dot. -/
lemma contains_dot_map_toLower (l : List Char) :
    (l.map Char.toLower).contains '.' = l.contains '.' := by
  simp only [List.contains, List.elem_eq_mem, List.mem_map, decide_eq_decide]
  constructor
  · rintro ⟨c, hc, hlow⟩
    rw [toLower_eq_dot_iff] at hlow
    rwa [hlow] at hc
  · intro h
    exact ⟨'.', h, by decide⟩

/-- Taking the suffix after the last dot commutes with lowercasing. -/
lemma afterLastDot_map_toLower (l : List Char) :
    afterLastDot (l.map Char.toLower) = (afterLastDot l).map Char.toLower := by
  have hp : ((fun c => decide (c ≠ '.')) ∘ Char.toLower) =
      (fun c => decide (c ≠ '.')) := by
    funext c
    simp only [Function.comp_apply, decide_eq_decide]
    exact not_congr (toLower_eq_dot_iff c)
  unfold afterLastDot
  rw [← List.map_reverse, List.takeWhile_map, hp, ← List.map_reverse]

/-- One failing round of the retry loop: the capability is invoked once,
the filesystem is rewritten only when the failure happened while
writing, the error is recorded, and `1.5 * attempt` seconds are slept. -/
lemma download_loop_step_fail (attempts : Nat → AttemptResult) (target : String)
    (remaining i : Nat) (fs : FS) (last_err : Option (String × String))
    (calls : Nat) (sleeps : List ℚ) (hfail : (attempts i).fails = true) :
    download_loop attempts target (remaining + 1) i fs last_err calls sleeps =
      download_loop attempts target remaining (i + 1)
        (match attempts i with
         | .writeErr n _ _ => fsSet fs target n
         | _ => fs)
        (attempts i).errInfo (calls + 1) (sleeps ++ [(3 / 2 : ℚ) * (i + 1)]) := by
  cases h : attempts i with
  | success n =>
    rw [h] at hfail
    simp [AttemptResult.fails] at hfail
  | fetchErr t m =>
    rw [download_loop, h]
    rfl
  | writeErr n t m =>
    rw [download_loop, h]
    rfl

/-! Claim theorems. -/

/-- C1, counterexample: with a capability whose streaming to disk breaks
after 100 bytes on every attempt, `download_asset` exhausts its retries
and returns status `error`, yet a non-empty partial file remains at the
target path and satisfies the exists-and-size>0 check, so a subsequent
call on the same asset and output directory returns status `skip`
(without any download call) although no download ever completed. -/
theorem download_error_partial_file_mistaken_for_complete :
    (download_asset false c1_asset "out" c1_attempts [] 3).status = "error" ∧
    exists_nonempty (download_asset false c1_asset "out" c1_attempts [] 3).fs
      (target_path "out" c1_asset) = true ∧
    (download_asset false c1_asset "out" c1_attempts
      (download_asset false c1_asset "out" c1_attempts [] 3).fs 3).status = "skip" ∧
    (download_asset false c1_asset "out" c1_attempts
      (download_asset false c1_asset "out" c1_attempts [] 3).fs 3).downloadCalls = 0 := by
  decide

/-- C1, amended: if every failing invocation raises in the fetch itself
(before `save_stream_to_file` opens the target), then after exhausting
retries with status `error` the filesystem is unchanged, and a
subsequent call of `download_asset` on the same asset and output
directory does not return status `skip`.  The unamended claim is false:
a failure during the disk write leaves a partial non-empty file that the
next run mistakes for a completed download
(`download_error_partial_file_mistaken_for_complete`). -/
theorem download_error_fetch_failures_leave_no_file (sv : Bool) (asset : Asset)
    (out_dir : String) (attempts : Nat → AttemptResult) (fs : FS)
    (et em : Nat → String)
    (hv : (sv && asset.item_type == "video") = false)
    (hf : exists_nonempty fs (target_path out_dir asset) = false)
    (he : ∀ i, attempts i = AttemptResult.fetchErr (et i) (em i)) :
    (download_asset sv asset out_dir attempts fs 3).status = "error" ∧
    (download_asset sv asset out_dir attempts fs 3).fs = fs ∧
    (download_asset sv asset out_dir attempts
      (download_asset sv asset out_dir attempts fs 3).fs 3).status ≠ "skip" := by
  have hred : download_asset sv asset out_dir attempts fs 3 =
      download_loop attempts (target_path out_dir asset) 3 0 fs none 0 [] := by
    rw [download_asset, hv]
    simp [hf]
  have hloop : ∀ (remaining i : Nat) (last_err : Option (String × String))
      (calls : Nat) (sleeps : List ℚ),
      (download_loop attempts (target_path out_dir asset) remaining i fs
        last_err calls sleeps).fs = fs ∧
      (download_loop attempts (target_path out_dir asset) remaining i fs
        last_err calls sleeps).status = "error" := by
    intro remaining
    induction remaining with
    | zero => intro i last_err calls sleeps; exact ⟨rfl, rfl⟩
    | succ k ih =>
      intro i last_err calls sleeps
      rw [download_loop, he i]
      exact ih (i + 1) (some (et i, em i)) (calls + 1) _
  have h1 := hloop 3 0 none 0 []
  refine ⟨hred ▸ h1.2, hred ▸ h1.1, ?_⟩
  rw [hred, h1.1, hred, h1.2]
  decide

/-- Witness for C1's amended theorem at a concrete input. -/
theorem download_error_fetch_failures_leave_no_file_witness :
    (download_asset false c1_asset "out" c1_fetch_attempts [] 3).status = "error" ∧
    (download_asset false c1_asset "out" c1_fetch_attempts [] 3).fs = [] ∧
    (download_asset false c1_asset "out" c1_fetch_attempts
      (download_asset false c1_asset "out" c1_fetch_attempts [] 3).fs 3).status ≠ "skip" :=
  download_error_fetch_failures_leave_no_file false c1_asset "out" c1_fetch_attempts []
    (fun _ => "ConnectionError") (fun _ => "timed out") rfl rfl (fun _ => rfl)

/-- C2: for every asset not skipped as a video, if a file already exists
at the computed target path with size greater than 0 bytes, then
`download_asset` returns status `skip` with that path, leaves the
filesystem unchanged, invokes the download capability zero times and
sleeps never. -/
theorem download_skip_existing_nonempty (sv : Bool) (asset : Asset) (out_dir : String)
    (attempts : Nat → AttemptResult) (fs : FS) (mr : Int) (n : Nat)
    (hv : (sv && asset.item_type == "video") = false)
    (hf : fsGet fs (target_path out_dir asset) = some n) (hn : 0 < n) :
    download_asset sv asset out_dir attempts fs mr =
      ⟨some (target_path out_dir asset), "skip", fs, 0, []⟩ := by
  have hex : exists_nonempty fs (target_path out_dir asset) = true := by
    rw [exists_nonempty, hf]
    simpa using hn
  rw [download_asset, hv]
  simp [hex]

/-- Witness for C2 at a concrete input. -/
theorem download_skip_existing_nonempty_witness :
    download_asset false c2_asset "out" c2_attempts c2_fs 3 =
      ⟨some (target_path "out" c2_asset), "skip", c2_fs, 0, []⟩ :=
  download_skip_existing_nonempty false c2_asset "out" c2_attempts c2_fs 3 5
    rfl (by decide) (by decide)

/-- C3: for every asset not skipped and not already on disk, if the
download capability raises on every invocation, `download_asset` with
`max_retries = 3` invokes it exactly 3 times, sleeps 1.5, 3.0 and 4.5
seconds after the successive failures, and returns status `error` with
a message combining the last error's type name and text. -/
theorem download_retry_exhaustion (sv : Bool) (asset : Asset) (out_dir : String)
    (attempts : Nat → AttemptResult) (fs : FS)
    (hv : (sv && asset.item_type == "video") = false)
    (hf : exists_nonempty fs (target_path out_dir asset) = false)
    (he : ∀ i, (attempts i).fails = true) :
    (download_asset sv asset out_dir attempts fs 3).status = "error" ∧
    (download_asset sv asset out_dir attempts fs 3).downloadCalls = 3 ∧
    (download_asset sv asset out_dir attempts fs 3).sleeps =
      [(3 / 2 : ℚ), 3, 9 / 2] ∧
    (download_asset sv asset out_dir attempts fs 3).result =
      some (errText (attempts 2).errInfo) := by
  have hred : download_asset sv asset out_dir attempts fs 3 =
      download_loop attempts (target_path out_dir asset) 3 0 fs none 0 [] := by
    rw [download_asset, hv]
    simp [hf]
  rw [hred]
  rw [show (3 : Nat) = 2 + 1 from rfl, download_loop_step_fail attempts _ _ _ _ _ _ _ (he 0)]
  rw [show (2 : Nat) = 1 + 1 from rfl, download_loop_step_fail attempts _ _ _ _ _ _ _ (he 1)]
  rw [show (1 : Nat) = 0 + 1 from rfl, download_loop_step_fail attempts _ _ _ _ _ _ _ (he 2)]
  rw [download_loop]
  refine ⟨rfl, rfl, ?_, rfl⟩
  norm_num

/-- Witness for C3 at a concrete input: the last invocation raises a
`ConnectionError`, and the reported message is its type name and text. -/
theorem download_retry_exhaustion_witness :
    (download_asset false c3_asset "out" c3_attempts [] 3).status = "error" ∧
    (download_asset false c3_asset "out" c3_attempts [] 3).downloadCalls = 3 ∧
    (download_asset false c3_asset "out" c3_attempts [] 3).sleeps =
      [(3 / 2 : ℚ), 3, 9 / 2] ∧
    (download_asset false c3_asset "out" c3_attempts [] 3).result =
      some "ConnectionError: timed out" := by
  have h := download_retry_exhaustion false c3_asset "out" c3_attempts [] rfl rfl
    (by intro i; by_cases hi : i = 1 <;> simp [c3_attempts, hi, AttemptResult.fails])
  exact ⟨h.1, h.2.1, h.2.2.1, h.2.2.2.trans (by decide)⟩

/-- C4, counterexample: for the asset named `My:File*Name?.JPG` created
at 2026-01-05T10:20:30Z, the derived target filename is
`20260105_102030_MyFileName.JPG.jpg` — the sanitized base keeps the
original `.JPG` suffix and the derived extension is appended after it —
not `20260105_102030_MyFileName.jpg` as the claim states. -/
theorem target_filename_sanitization_counterexample :
    target_name c4_asset = "20260105_102030_MyFileName.JPG.jpg" ∧
    target_name c4_asset ≠ "20260105_102030_MyFileName.jpg" := by
  decide

/-- C4, amended: for an asset with original filename `My:File*Name?.JPG`
and creation timestamp 2026-01-05T10:20:30Z, the derived target filename
(sanitized base name plus extension) is
`20260105_102030_MyFileName.JPG.jpg`, and it contains no character of
the reserved set and no surrounding whitespace. -/
theorem target_filename_sanitization_amended :
    target_name c4_asset = "20260105_102030_MyFileName.JPG.jpg" ∧
    (target_name c4_asset).data.all (fun c => !(reservedChars.contains c)) = true ∧
    isPySpace ((target_name c4_asset).data.headD 'x') = false ∧
    isPySpace ((target_name c4_asset).data.getLastD 'x') = false := by
  decide

/-- C5: for every asset, the code's base name is the sanitization of the
spec's `"{timeTag}_{nameOrId}"` (timestamp formatted `YYYYMMDD_HHMMSS`
when present, else `unknown`; original filename when non-empty, else the
identifier), and the code's extension equals the spec's rule (dot plus
lowercased suffix after the last dot when the filename contains one,
else `.mov` for video, else `.jpg`).  Both sides are plain functions of
the asset's fields, so the derivation is deterministic. -/
theorem filename_derivation_matches_spec (asset : Asset) :
    build_filename asset = safe_filename (spec_base_name asset) ∧
    file_ext asset = spec_extension asset := by
  constructor
  · unfold build_filename spec_base_name asset_timestamp
    by_cases h : asset.filename = "" <;> simp [h]
  · unfold file_ext spec_extension lowerStr
    simp only [data_mk]
    rw [contains_dot_map_toLower, afterLastDot_map_toLower]

/-- C6: the month filter of `main` selects exactly the assets whose
creation timestamp is present and lies within the inclusive bounds
(an asset with an absent timestamp satisfies no such witness, so it is
never selected), and it returns a sublist of the input, preserving the
original relative order. -/
theorem month_filter_correct (photos : List Asset) (mstart mend : DateTime) :
    (filter_by_month photos mstart mend).Sublist photos ∧
    (∀ a, a ∈ filter_by_month photos mstart mend ↔
      a ∈ photos ∧ ∃ t, a.created = some t ∧
        DateTime.le mstart t = true ∧ DateTime.le t mend = true) := by
  refine ⟨List.filter_sublist _, ?_⟩
  intro a
  rw [filter_by_month, List.mem_filter, is_in_month_iff]

/-- C7: for valid year-month values, `month_range` yields the finite
ordered sequence of consecutive first-of-month instants from the start
month on; it is empty when start is after end, and when start is not
after end it begins with start's month and ends with end's month.  The
Lean model is total, so the loop can neither crash nor run forever. -/
theorem month_range_inclusive (y1 m1 y2 m2 : Nat)
    (h11 : 1 ≤ m1) (h12 : m1 ≤ 12) (h21 : 1 ≤ m2) (h22 : m2 ≤ 12) :
    month_range (mkYM y1 m1) (mkYM y2 m2) =
      spec_month_seq (12 * y2 + m2 + 1 - (12 * y1 + m1)) y1 m1 ∧
    (12 * y2 + m2 < 12 * y1 + m1 → month_range (mkYM y1 m1) (mkYM y2 m2) = []) ∧
    (12 * y1 + m1 ≤ 12 * y2 + m2 →
      (month_range (mkYM y1 m1) (mkYM y2 m2)).head? = some (mkYM y1 m1) ∧
      (month_range (mkYM y1 m1) (mkYM y2 m2)).getLast? = some (mkYM y2 m2)) := by
  have hmain : month_range (mkYM y1 m1) (mkYM y2 m2) =
      spec_month_seq (12 * y2 + m2 + 1 - (12 * y1 + m1)) y1 m1 := by
    unfold month_range
    rw [show (mkYM y1 m1).replaceDay 1 = mkYM y1 m1 from rfl,
      show (mkYM y2 m2).replaceDay 1 = mkYM y2 m2 from rfl]
    exact month_range_go_spec y2 m2 h21 h22 _ y1 m1 h11 h12 rfl
  refine ⟨hmain, ?_, ?_⟩
  · intro hlt
    rw [hmain, show 12 * y2 + m2 + 1 - (12 * y1 + m1) = 0 from by omega]
    rfl
  · intro hle
    obtain ⟨n, hn⟩ : ∃ n, 12 * y2 + m2 + 1 - (12 * y1 + m1) = n + 1 :=
      ⟨12 * y2 + m2 - (12 * y1 + m1), by omega⟩
    rw [hmain, hn]
    constructor
    · rw [spec_month_seq]
      rfl
    · exact spec_month_seq_getLast y2 m2 h21 h22 n y1 m1 h11 h12 (by omega)

/-- Witness for C7: `month_range("2026-01", "2026-03")` yields exactly
the three month starts in order, and a reversed range is empty. -/
theorem month_range_inclusive_witness :
    month_range (mkYM 2026 1) (mkYM 2026 3) =
      [mkYM 2026 1, mkYM 2026 2, mkYM 2026 3] ∧
    month_range (mkYM 2026 3) (mkYM 2026 1) = [] := by
  constructor
  · rw [(month_range_inclusive 2026 1 2026 3 (by decide) (by decide) (by decide)
      (by decide)).1]
    decide
  · exact (month_range_inclusive 2026 3 2026 1 (by decide) (by decide) (by decide)
      (by decide)).2.1 (by decide)

/-- C8: for every month, `month_bounds` returns the month's day 1 at
00:00:00 as `first` and the month's last calendar day at 23:59:59 as
`last`, where the last day comes from `days_in_month`; February has 29
days exactly in Gregorian leap years, and the spec's two instances
2024-02 (29) and 2023-02 (28) hold. -/
theorem month_bounds_correct (d : DateTime) (h1 : 1 ≤ d.month) (h2 : d.month ≤ 12) :
    month_bounds d =
      (⟨d.year, d.month, 1, 0, 0, 0, 0⟩,
       ⟨d.year, d.month, days_in_month d.year d.month, 23, 59, 59, 0⟩) ∧
    (∀ y, days_in_month y 2 = 29 ↔ isleap y = true) ∧
    (∀ y, isleap y = true ↔ (y % 4 = 0 ∧ (y % 100 ≠ 0 ∨ y % 400 = 0))) ∧
    days_in_month 2024 2 = 29 ∧ days_in_month 2023 2 = 28 := by
  refine ⟨rfl, ?_, ?_, by decide, by decide⟩
  · intro y
    simp only [days_in_month]
    split_ifs with h <;> simp [h]
  · intro y
    simp [isleap]

/-- Witness for C8 at the spec's two February instances. -/
theorem month_bounds_correct_witness :
    month_bounds (mkYM 2024 2) =
      (⟨2024, 2, 1, 0, 0, 0, 0⟩, ⟨2024, 2, 29, 23, 59, 59, 0⟩) ∧
    month_bounds (mkYM 2023 2) =
      (⟨2023, 2, 1, 0, 0, 0, 0⟩, ⟨2023, 2, 28, 23, 59, 59, 0⟩) := by
  constructor
  · rw [(month_bounds_correct (mkYM 2024 2) (by decide) (by decide)).1]
    decide
  · rw [(month_bounds_correct (mkYM 2023 2) (by decide) (by decide)).1]
    decide

/-- C9: with the skip-videos flag set, `download_asset` on any video
asset returns status `skipped_video` with result `None`, leaves the
filesystem unchanged, invokes the download capability zero times and
sleeps never. -/
theorem video_skip_no_effects (asset : Asset) (out_dir : String)
    (attempts : Nat → AttemptResult) (fs : FS) (mr : Int)
    (h : asset.item_type = "video") :
    download_asset true asset out_dir attempts fs mr =
      ⟨none, "skipped_video", fs, 0, []⟩ := by
  rw [download_asset]
  simp [h]

/-- Witness for C9 at a concrete input. -/
theorem video_skip_no_effects_witness :
    download_asset true c9_asset "out" c9_attempts [] 3 =
      ⟨none, "skipped_video", [], 0, []⟩ :=
  video_skip_no_effects c9_asset "out" c9_attempts [] 3 rfl

/-- C10: for every asset not skipped as a video and not already on disk,
`download_asset` with a non-positive `max_retries` performs no download
invocation and no sleep, and returns the pair `("NoneType: None",
"error")` — the message rendered from the never-assigned `last_err`. -/
theorem nonpositive_retries_null_error (sv : Bool) (asset : Asset) (out_dir : String)
    (attempts : Nat → AttemptResult) (fs : FS) (mr : Int)
    (hv : (sv && asset.item_type == "video") = false)
    (hf : exists_nonempty fs (target_path out_dir asset) = false)
    (hm : mr ≤ 0) :
    download_asset sv asset out_dir attempts fs mr =
      ⟨some "NoneType: None", "error", fs, 0, []⟩ := by
  have ht : mr.toNat = 0 := Int.toNat_eq_zero.mpr hm
  rw [download_asset, hv]
  simp only [Bool.false_eq_true, if_false, hf, ht]
  rfl

/-- Witness for C10 at `max_retries = 0` and at a negative value. -/
theorem nonpositive_retries_null_error_witness :
    download_asset false c10_asset "out" c10_attempts [] 0 =
      ⟨some "NoneType: None", "error", [], 0, []⟩ ∧
    download_asset false c10_asset "out" c10_attempts [] (-2) =
      ⟨some "NoneType: None", "error", [], 0, []⟩ :=
  ⟨nonpositive_retries_null_error false c10_asset "out" c10_attempts [] 0
      rfl rfl (by decide),
   nonpositive_retries_null_error false c10_asset "out" c10_attempts [] (-2)
      rfl rfl (by decide)⟩
